import Mathlib

/-!
Verification of the sliding-window request counter of `simple_server.go`.

The Go program keeps a `requestCounter` struct with four fields
(`timeLapseReqNo`, `timeWindowReqNo`, `deltaIdx`, `deltas`), a JSON
persistence codec (`jsonData`, `loadFile`, `updateFile`), a once-per-second
rotation (`updateTimeWindow`), and a tiny HTTP surface
(`handlerDispatcher.ServeHTTP`, `printRequestNo`).

Machine integers: `timeLapseReqNo`, `timeWindowReqNo` and the entries of
`deltas` are Go `uint64`; `deltaIdx` is Go `uint` (64-bit).  They are
embedded as `Nat` with explicit wrap-around `% 2^64` exactly where Go
arithmetic wraps.
-/

set_option maxRecDepth 100000

/-- Modulus of Go `uint64` / `uint` arithmetic: `2 ^ 64`. -/
def M64 : ℕ := 18446744073709551616

/-- Wrapping `uint64` addition, as performed by Go `+` on `uint64`. -/
def u64add (a b : ℕ) : ℕ := (a + b) % M64

/-- Wrapping `uint64` subtraction, as performed by Go `-` on `uint64`
(for representable operands `a b < M64` this is `(a + M64 - b) % M64`). -/
def u64sub (a b : ℕ) : ℕ := (a + (M64 - b % M64)) % M64

/-- Embedding of the Go struct `requestCounter` (the mutex is concurrency
discipline, not data, and is dropped; all modelled operations are the
code's critical sections, executed atomically). -/
structure requestCounter where
  /-- Number of requests received in the current `timeLapse` period
  (Go field `timeLapseReqNo`, `uint64`). -/
  timeLapseReqNo : ℕ
  /-- Total number of requests in the trailing `timeWindow`
  (Go field `timeWindowReqNo`, `uint64`). -/
  timeWindowReqNo : ℕ
  /-- Cursor into `deltas` (Go field `deltaIdx`, `uint`). -/
  deltaIdx : ℕ
  /-- The 60 per-second buckets (Go field `deltas`, `[]uint64`,
  allocated with length 60 by `init`). -/
  deltas : List ℕ
  deriving DecidableEq, Repr

/-- Embedding of the Go struct `jsonData`, the durable-file codec shape
`{DeltaIdx, Deltas, TimeWindowReqNo}`. -/
structure jsonData where
  DeltaIdx : ℕ
  Deltas : List ℕ
  TimeWindowReqNo : ℕ
  deriving DecidableEq, Repr

/-- State of the durable file `request-file.txt`: missing, present but not
decodable as `jsonData`, or present and well-formed. -/
inductive fileState where
  | absent : fileState
  | corrupt : fileState
  | good : jsonData → fileState
  deriving DecidableEq

/-- Embedding of `requestCounter.increment`: `c.timeLapseReqNo++`
(wrapping `uint64` increment). -/
def increment (c : requestCounter) : requestCounter :=
  { c with timeLapseReqNo := u64add c.timeLapseReqNo 1 }

/-- Embedding of Go's builtin `copy(dst, src)` on slices: overwrites the
first `min (length dst) (length src)` entries of `dst` with those of
`src`, keeping `dst`'s length. -/
def goCopy : List ℕ → List ℕ → List ℕ
  | [], _ => []
  | d :: ds, [] => d :: ds
  | _ :: ds, s :: ss => s :: goCopy ds ss

/-- Embedding of `requestCounter.loadFile`.  `os.Stat` failing (absent
file) returns with the counter unchanged; a JSON decode failure calls
`abort`, i.e. `log.Fatalln` — modelled as `Except.error`; otherwise the
three persisted fields are loaded (`copy` semantics for `deltas`;
`timeLapseReqNo` is not touched). -/
def loadFile (c : requestCounter) : fileState → Except String requestCounter
  | .absent => .ok c
  | .corrupt => .error "JSON decode"
  | .good j =>
      .ok { c with
              deltaIdx := j.DeltaIdx
              deltas := goCopy c.deltas j.Deltas
              timeWindowReqNo := j.TimeWindowReqNo }

/-- Embedding of `requestCounter.init` on the zero-valued struct Go starts
from: allocate `deltas` as 60 zeros, then `loadFile`.  `main` calls this
before `ListenAndServe`, so an `Except.error` result means the process
aborts before serving any traffic. -/
def rcInit (f : fileState) : Except String requestCounter :=
  loadFile { timeLapseReqNo := 0
             timeWindowReqNo := 0
             deltaIdx := 0
             deltas := List.replicate 60 0 } f

/-- Embedding of `requestCounter.updateFile` (Flush): the JSON document it
writes, `{c.deltaIdx, c.deltas, c.timeWindowReqNo}`.  The counter itself
is unchanged by a flush. -/
def flushData (c : requestCounter) : jsonData :=
  { DeltaIdx := c.deltaIdx
    Deltas := c.deltas
    TimeWindowReqNo := c.timeWindowReqNo }

/-- Embedding of `requestCounter.updateTimeWindow` (Rotate).  The guard
`float64(c.deltaIdx) == timeWindow.Seconds()` compares with `60.0`; for a
`uint` value the comparison holds exactly at `deltaIdx = 60` (conversion
of any other representable `uint` to `float64` is never `60.0`).  Both
`-=` and `+=` on `timeWindowReqNo` wrap as `uint64`; `deltaIdx++` wraps as
`uint`.  The Go index expression `c.deltas[idx]` is embedded with
`List.getD _ _ 0`; in-bounds-ness of the access is proved separately. -/
def updateTimeWindow (c : requestCounter) : requestCounter :=
  let idx := if c.deltaIdx = 60 then 0 else c.deltaIdx
  let twr := u64sub c.timeWindowReqNo (c.deltas.getD idx 0)
  { timeLapseReqNo := 0
    timeWindowReqNo := u64add twr c.timeLapseReqNo
    deltaIdx := (idx + 1) % M64
    deltas := c.deltas.set idx c.timeLapseReqNo }

/-- The total printed by `printRequestNo`, line 158 of the source:
`reqCnt.timeWindowReqNo + reqCnt.timeLapseReqNo` (wrapping `uint64`
addition).  This is the spec's `WindowTotal()`. -/
def printedTotal (c : requestCounter) : ℕ :=
  u64add c.timeWindowReqNo c.timeLapseReqNo

/-- N-fold `increment`. -/
def incN : ℕ → requestCounter → requestCounter
  | 0, c => c
  | n + 1, c => incN n (increment c)

/-- N-fold `updateTimeWindow`. -/
def rotN : ℕ → requestCounter → requestCounter
  | 0, c => c
  | n + 1, c => rotN n (updateTimeWindow c)

/-- The counter as the process holds it right after a cold start
(`init` with no durable file): every field zero, 60 zero buckets. -/
def initialCounter : requestCounter :=
  { timeLapseReqNo := 0
    timeWindowReqNo := 0
    deltaIdx := 0
    deltas := List.replicate 60 0 }

/-- States reachable by any interleaving of the counter's operations,
starting from a cold process with no durable file.  The second component
tracks the durable file: `updateFile` overwrites it wholesale with
`flushData`; `load` models a restart (a fresh zero struct re-running
`init` against the current file, as `main` does), enabled only when
`rcInit` succeeds. -/
inductive Reach : requestCounter → fileState → Prop where
  | start : Reach initialCounter .absent
  | inc {c f} : Reach c f → Reach (increment c) f
  | rot {c f} : Reach c f → Reach (updateTimeWindow c) f
  | flush {c f} : Reach c f → Reach c (.good (flushData c))
  | load {c f c'} : Reach c f → rcInit f = .ok c' → Reach c' f

/-- Embedding of Go `html.EscapeString`: replaces the five characters the
`html` package escapes, leaving every other character unchanged. -/
def escapeChar (ch : Char) : String :=
  if ch = '&' then "&amp;"
  else if ch = '\'' then "&#39;"
  else if ch = '<' then "&lt;"
  else if ch = '>' then "&gt;"
  else if ch = '"' then "&#34;"
  else ch.toString

/-- Embedding of Go `html.EscapeString` over a whole string. -/
def escapeString (s : String) : String :=
  s.data.foldl (fun acc ch => acc ++ escapeChar ch) ""

/-- The URL of an inbound request as the handler sees it: `r.URL.Path`
plus `r.URL.RawQuery`. -/
structure goURL where
  path : String
  rawQuery : String

/-- Embedding of `r.URL.String()` for a server-side request URL (no
scheme, host or fragment): the path, then `?query` when the query is
non-empty. -/
def urlString (u : goURL) : String :=
  u.path ++ (if u.rawQuery = "" then "" else "?" ++ u.rawQuery)

/-- Embedding of the handler `printRequestNo` as a function from the
request method, the formatted current time, and the counter state to
(status code, new counter state, body).  A non-GET method returns 405
with no body and no increment; otherwise the counter is incremented and
the body renders `timeWindowReqNo + timeLapseReqNo` (read after the
increment) and the window `timeWindow = time.Minute`, which Go's `%s`
formats as `1m0s`. -/
def printRequestNo (method : String) (now : String) (c : requestCounter) :
    ℕ × requestCounter × String :=
  if method ≠ "GET" then (405, c, "")
  else
    let c' := increment c
    (200, c',
      "Served " ++ toString (printedTotal c') ++
        " requests in the last : 1m0s\n" ++ "The time is: " ++ now ++ "\n")

/-- Embedding of `handlerDispatcher.ServeHTTP` with the route table built
in `main` (`mux` holds exactly the key `"/"`, mapped to `printRequestNo`):
the key looked up is `r.URL.String()`; a miss yields 404 with a body
naming the escaped `r.URL.Path`. -/
def serveHTTP (u : goURL) (method : String) (now : String)
    (c : requestCounter) : ℕ × requestCounter × String :=
  if urlString u = "/" then printRequestNo method now c
  else (404, c,
    "Requested resource \x27" ++ escapeString u.path ++ "\x27 does not exist\n")

/-- A sample counter state used to instantiate hypotheses at concrete
inputs: 7 pending requests, one settled bucket of 5, cursor at 3. -/
def sampleCounter : requestCounter :=
  { timeLapseReqNo := 7
    timeWindowReqNo := 5
    deltaIdx := 3
    deltas := 5 :: List.replicate 59 0 }

/-- Scenario state: cold start, five increments, one rotation. -/
def afterFirstRotate : requestCounter :=
  updateTimeWindow (incN 5 initialCounter)

/-- Scenario state: `afterFirstRotate`, three increments, one rotation. -/
def afterSecondRotate : requestCounter :=
  updateTimeWindow (incN 3 afterFirstRotate)

/-! ## List helper lemmas -/

/-- Any `getD` read (with default 0) is bounded by the list's sum. -/
lemma getD_le_sum (l : List ℕ) (i : ℕ) : l.getD i 0 ≤ l.sum := by
  induction l generalizing i with
  | nil => simp
  | cons a t ih =>
      cases i with
      | zero => simp
      | succ n =>
          simp only [List.getD_cons_succ, List.sum_cons]
          exact le_trans (ih n) (Nat.le_add_left _ _)

/-- Effect of an in-bounds `set` on the sum, subtraction-free form. -/
lemma sum_set_add (l : List ℕ) (i x : ℕ) (h : i < l.length) :
    (l.set i x).sum + l.getD i 0 = l.sum + x := by
  induction l generalizing i with
  | nil => simp at h
  | cons a t ih =>
      cases i with
      | zero =>
          simp only [List.set_cons_zero, List.sum_cons, List.getD_cons_zero]
          omega
      | succ n =>
          simp only [List.set_cons_succ, List.sum_cons, List.getD_cons_succ]
          have := ih n (by simpa using h)
          omega

/-- Reading back an in-bounds `set`. -/
lemma getD_set_self (l : List ℕ) (i x : ℕ) (h : i < l.length) :
    (l.set i x).getD i 0 = x := by
  induction l generalizing i with
  | nil => simp at h
  | cons a t ih =>
      cases i with
      | zero => simp
      | succ n => simpa using ih n (by simpa using h)

/-- An in-bounds `getD` read returns a member of the list. -/
lemma getD_mem (l : List ℕ) (i : ℕ) (h : i < l.length) : l.getD i 0 ∈ l := by
  induction l generalizing i with
  | nil => simp at h
  | cons a t ih =>
      cases i with
      | zero => simp
      | succ n => simpa using List.mem_cons_of_mem a (ih n (by simpa using h))

/-- Go `copy` into a destination of the same length returns the source. -/
lemma goCopy_eq_src (dst src : List ℕ) (h : dst.length = src.length) :
    goCopy dst src = src := by
  induction dst generalizing src with
  | nil => cases src with
      | nil => rfl
      | cons s ss => simp at h
  | cons d ds ih =>
      cases src with
      | nil => simp at h
      | cons s ss => simp only [goCopy, List.cons.injEq, true_and]
                     exact ih ss (by simpa using h)

/-! ## Reachability invariant -/

/-- Representation invariant of the in-memory counter: 60 buckets, cursor
at most 60, all `uint64` fields representable, and `timeWindowReqNo` equal
to the (wrapped) sum of the buckets. -/
def counterInv (c : requestCounter) : Prop :=
  c.deltas.length = 60 ∧ c.deltaIdx ≤ 60 ∧ (∀ d ∈ c.deltas, d < M64) ∧
  c.timeLapseReqNo < M64 ∧ c.timeWindowReqNo < M64 ∧
  c.timeWindowReqNo = c.deltas.sum % M64

/-- Invariant of the durable file: absent, or a snapshot satisfying the
counter invariant; reachable executions never leave a corrupt file. -/
def fileInv : fileState → Prop
  | .absent => True
  | .corrupt => False
  | .good j => j.Deltas.length = 60 ∧ j.DeltaIdx ≤ 60 ∧
      (∀ d ∈ j.Deltas, d < M64) ∧ j.TimeWindowReqNo < M64 ∧
      j.TimeWindowReqNo = j.Deltas.sum % M64

lemma counterInv_initial : counterInv initialCounter := by
  refine ⟨by simp [initialCounter], by simp [initialCounter], ?_, ?_, ?_, ?_⟩
  · intro d hd
    simp only [initialCounter] at hd
    have := List.eq_of_mem_replicate hd
    simp [this, M64]
  · simp [initialCounter, M64]
  · simp [initialCounter, M64]
  · simp [initialCounter]

lemma counterInv_increment {c : requestCounter} (h : counterInv c) :
    counterInv (increment c) := by
  obtain ⟨h1, h2, h3, h4, h5, h6⟩ := h
  exact ⟨h1, h2, h3, Nat.mod_lt _ (by simp [M64]), h5, h6⟩

lemma counterInv_rotate {c : requestCounter} (h : counterInv c) :
    counterInv (updateTimeWindow c) := by
  obtain ⟨h1, h2, h3, h4, h5, h6⟩ := h
  simp only [updateTimeWindow]
  set idx := if c.deltaIdx = 60 then 0 else c.deltaIdx with hidx
  have hlt : idx < 60 := by
    rw [hidx]; split <;> omega
  have hltlen : idx < c.deltas.length := by omega
  have hold_mem := getD_mem c.deltas idx hltlen
  have hold_lt : c.deltas.getD idx 0 < M64 := h3 _ hold_mem
  have hold_le : c.deltas.getD idx 0 ≤ c.deltas.sum := getD_le_sum c.deltas idx
  have hsum := sum_set_add c.deltas idx c.timeLapseReqNo hltlen
  refine ⟨by simpa using h1, ?_, ?_, by simp [M64], ?_, ?_⟩
  · have : (idx + 1) % M64 = idx + 1 := Nat.mod_eq_of_lt (by simp [M64]; omega)
    simp only [this]; omega
  · intro d hd
    rcases List.mem_or_eq_of_mem_set hd with hmem | heq
    · exact h3 _ hmem
    · simpa [heq] using h4
  · exact Nat.mod_lt _ (by simp [M64])
  · simp only [u64add, u64sub, Nat.mod_eq_of_lt hold_lt, h6]
    simp only [M64] at *
    omega

lemma counterInv_load {f : fileState} {c' : requestCounter}
    (hf : fileInv f) (h : rcInit f = .ok c') : counterInv c' := by
  cases f with
  | absent =>
      simp only [rcInit, loadFile, Except.ok.injEq] at h
      subst h
      exact counterInv_initial
  | corrupt => simp [rcInit, loadFile] at h
  | good j =>
      obtain ⟨g1, g2, g3, g4, g5⟩ := hf
      simp only [rcInit, loadFile, Except.ok.injEq] at h
      subst h
      have hc : goCopy (List.replicate 60 0) j.Deltas = j.Deltas :=
        goCopy_eq_src _ _ (by simpa using g1.symm)
      simp only [counterInv, hc]
      exact ⟨g1, g2, g3, by simp [M64], g4, g5⟩

/-- Every reachable configuration satisfies the counter and file
invariants. -/
lemma reach_inv {c : requestCounter} {f : fileState} (h : Reach c f) :
    counterInv c ∧ fileInv f := by
  induction h with
  | start => exact ⟨counterInv_initial, trivial⟩
  | inc _ ih => exact ⟨counterInv_increment ih.1, ih.2⟩
  | rot _ ih => exact ⟨counterInv_rotate ih.1, ih.2⟩
  | flush _ ih =>
      obtain ⟨⟨h1, h2, h3, h4, h5, h6⟩, _⟩ := ih
      exact ⟨⟨h1, h2, h3, h4, h5, h6⟩, ⟨h1, h2, h3, h5, h6⟩⟩
  | load _ hok ih => exact ⟨counterInv_load ih.2 hok, ih.2⟩

/-- Repeated rotation stays within the reachable set. -/
lemma reach_rotN {c : requestCounter} {f : fileState} (n : ℕ)
    (h : Reach c f) : Reach (rotN n c) f := by
  induction n generalizing c with
  | zero => exact h
  | succ n ih => exact ih (Reach.rot h)

/-- Repeated increments leave every field but `timeLapseReqNo`
untouched. -/
lemma incN_fields (n : ℕ) (c : requestCounter) :
    (incN n c).timeWindowReqNo = c.timeWindowReqNo ∧
    (incN n c).deltaIdx = c.deltaIdx ∧
    (incN n c).deltas = c.deltas := by
  induction n generalizing c with
  | zero => exact ⟨rfl, rfl, rfl⟩
  | succ n ih =>
      obtain ⟨i1, i2, i3⟩ := ih (increment c)
      exact ⟨i1, i2, i3⟩

/-- Repeated increments accumulate into `timeLapseReqNo` modulo
`2 ^ 64`. -/
lemma incN_lapse (n : ℕ) (c : requestCounter)
    (h : c.timeLapseReqNo < M64) :
    (incN n c).timeLapseReqNo = (c.timeLapseReqNo + n) % M64 := by
  induction n generalizing c with
  | zero => simpa [incN] using (Nat.mod_eq_of_lt h).symm
  | succ n ih =>
      have hlt : (increment c).timeLapseReqNo < M64 := by
        simp only [increment, u64add]
        exact Nat.mod_lt _ (by simp [M64])
      have := ih (increment c) hlt
      simp only [incN] at this ⊢
      rw [this]
      simp only [increment, u64add, M64]
      omega

/-- `counterInv` is preserved by repeated increments. -/
lemma counterInv_incN {c : requestCounter} (n : ℕ) (h : counterInv c) :
    counterInv (incN n c) := by
  induction n generalizing c with
  | zero => exact h
  | succ n ih => exact ih (counterInv_increment h)

/-! ## Claim theorems -/

/-- C1, counterexample: in the reachable rotation-boundary state reached
by 60 rotations from a cold start, the pre-rotation cursor is 60; after 5
increments and one rotation there is no bucket at position 60 (the bucket
list has length 60, a `getD` read there returns the default 0, not 5) —
the 5 was written into bucket 0 instead.  So the bucket at the
pre-rotation cursor position does not equal N. -/
theorem C1_bucket_counterexample :
    Reach (rotN 60 initialCounter) fileState.absent ∧
    (rotN 60 initialCounter).timeLapseReqNo = 0 ∧
    (incN 5 (rotN 60 initialCounter)).deltaIdx = 60 ∧
    (updateTimeWindow (incN 5 (rotN 60 initialCounter))).deltas.length = 60 ∧
    (updateTimeWindow (incN 5 (rotN 60 initialCounter))).deltas.getD 60 0 = 0 ∧
    (updateTimeWindow (incN 5 (rotN 60 initialCounter))).deltas.getD 0 0 = 5 :=
  ⟨reach_rotN 60 Reach.start, by decide, by decide, by decide, by decide,
    by decide⟩

/-- C1 (amended): for every rotation-boundary counter state satisfying
the representation invariant and every `N < 2 ^ 64`, N calls to
`increment` followed by one rotation write N into the bucket the rotation
actually selects — the pre-rotation cursor when it is below 60, bucket 0
when the pre-rotation cursor is 60 — and `WindowTotal()` immediately
afterwards equals the `uint64` (mod `2 ^ 64`) sum of the 60 buckets
(never-rotated slots are zero). -/
theorem C1_bucket_conservation (c : requestCounter) (N : ℕ)
    (hinv : counterInv c) (hlap : c.timeLapseReqNo = 0) (hN : N < M64) :
    (updateTimeWindow (incN N c)).deltas.getD
        (if c.deltaIdx = 60 then 0 else c.deltaIdx) 0 = N ∧
    printedTotal (updateTimeWindow (incN N c)) =
      (updateTimeWindow (incN N c)).deltas.sum % M64 := by
  obtain ⟨h1, h2, h3, h4, h5, h6⟩ := hinv
  obtain ⟨f1, f2, f3⟩ := incN_fields N c
  have hlN : (incN N c).timeLapseReqNo = N := by
    rw [incN_lapse N c h4, hlap, Nat.zero_add, Nat.mod_eq_of_lt hN]
  constructor
  · simp only [updateTimeWindow]
    rw [f2, f3, hlN]
    exact getD_set_self _ _ _ (by rw [h1]; split <;> omega)
  · have h' := counterInv_rotate (counterInv_incN N ⟨h1, h2, h3, h4, h5, h6⟩)
    obtain ⟨_, _, _, _, g5, g6⟩ := h'
    have hz : (updateTimeWindow (incN N c)).timeLapseReqNo = 0 := rfl
    show u64add _ _ = _
    rw [u64add, hz, Nat.add_zero, Nat.mod_eq_of_lt g5, g6]

/-- C1, witness: the amended theorem instantiated at the cold-start state
with N = 5. -/
theorem C1_bucket_conservation_witness :
    (updateTimeWindow (incN 5 initialCounter)).deltas.getD
        (if initialCounter.deltaIdx = 60 then 0 else initialCounter.deltaIdx)
        0 = 5 ∧
    printedTotal (updateTimeWindow (incN 5 initialCounter)) =
      (updateTimeWindow (incN 5 initialCounter)).deltas.sum % M64 :=
  C1_bucket_conservation initialCounter 5 counterInv_initial rfl (by decide)

/-- C2: in every reachable configuration, `timeWindowReqNo` equals the
`uint64` (mod `2 ^ 64`) sum of the buckets — in particular immediately
after every completed rotation, whether starting cold or from a loaded
flush — and the live total the reader path (`printRequestNo`, line 158)
returns is `timeWindowReqNo + timeLapseReqNo` (as `uint64` addition). -/
theorem C2_window_invariant (c : requestCounter) (f : fileState)
    (h : Reach c f) :
    c.timeWindowReqNo = c.deltas.sum % M64 ∧
    printedTotal c = (c.timeWindowReqNo + c.timeLapseReqNo) % M64 := by
  refine ⟨?_, rfl⟩
  exact ((reach_inv h).1).2.2.2.2.2

/-- C2, witness: the invariant at the reachable state obtained by one
increment and one rotation from the cold start. -/
theorem C2_window_invariant_witness :
    (updateTimeWindow (increment initialCounter)).timeWindowReqNo =
      (updateTimeWindow (increment initialCounter)).deltas.sum % M64 ∧
    printedTotal (updateTimeWindow (increment initialCounter)) =
      ((updateTimeWindow (increment initialCounter)).timeWindowReqNo +
        (updateTimeWindow (increment initialCounter)).timeLapseReqNo) % M64 :=
  C2_window_invariant _ _ (Reach.rot (Reach.inc Reach.start))

/-- C3, counterexample: the state after exactly 60 rotations from a cold
start is reachable and has `deltaIdx = 60`, violating `cursor < 60`; the
next rotation therefore takes the `cursor == 60` reset branch (which is
what brings the cursor back to 1 after rotation 61). -/
theorem C3_cursor_counterexample :
    Reach (rotN 60 initialCounter) fileState.absent ∧
    (rotN 60 initialCounter).deltaIdx = 60 ∧
    ¬ (rotN 60 initialCounter).deltaIdx < 60 ∧
    (rotN 61 initialCounter).deltaIdx = 1 :=
  ⟨reach_rotN 60 Reach.start, by decide, by decide, by decide⟩

/-- C3 (amended): in every state reachable by any sequence of
Increment/Rotate/Flush/Load from the initial state the cursor satisfies
`0 ≤ cursor ≤ 60`; the value 60 is reached (after every 60th rotation),
the `cursor == 60` reset branch is exactly the code's wrap mechanism, and
the bucket index a rotation actually uses is always below 60. -/
theorem C3_cursor_bound (c : requestCounter) (f : fileState)
    (h : Reach c f) :
    c.deltaIdx ≤ 60 ∧ (if c.deltaIdx = 60 then 0 else c.deltaIdx) < 60 := by
  have h2 := ((reach_inv h).1).2.1
  refine ⟨h2, ?_⟩
  split <;> omega

/-- C3, witness: the cursor bound at the reachable state after 60
rotations, where the bound `≤ 60` is attained. -/
theorem C3_cursor_bound_witness :
    (rotN 60 initialCounter).deltaIdx ≤ 60 ∧
    (if (rotN 60 initialCounter).deltaIdx = 60 then 0
      else (rotN 60 initialCounter).deltaIdx) < 60 :=
  C3_cursor_bound _ _ (reach_rotN 60 Reach.start)

/-- C4: for every counter state with the fixed 60-bucket layout, a flush
followed by a load into a restarted process reproduces `deltaIdx`,
`deltas` and `timeWindowReqNo` exactly, and `timeLapseReqNo` is 0
afterwards whatever it was before the flush (it is never persisted). -/
theorem C4_flush_load_roundtrip (c : requestCounter)
    (hlen : c.deltas.length = 60) :
    rcInit (fileState.good (flushData c)) =
      Except.ok { timeLapseReqNo := 0
                  timeWindowReqNo := c.timeWindowReqNo
                  deltaIdx := c.deltaIdx
                  deltas := c.deltas } := by
  have hc : goCopy (List.replicate 60 0) c.deltas = c.deltas :=
    goCopy_eq_src _ _ (by simp [hlen])
  have hr : rcInit (fileState.good (flushData c)) =
      Except.ok { timeLapseReqNo := 0
                  timeWindowReqNo := c.timeWindowReqNo
                  deltaIdx := c.deltaIdx
                  deltas := goCopy (List.replicate 60 0) c.deltas } := rfl
  rw [hr, hc]

/-- C4, witness: the round trip at a concrete state with 7 pending
requests, which come back as 0. -/
theorem C4_flush_load_roundtrip_witness :
    sampleCounter.deltas.length = 60 ∧
    rcInit (fileState.good (flushData sampleCounter)) =
      Except.ok { timeLapseReqNo := 0
                  timeWindowReqNo := sampleCounter.timeWindowReqNo
                  deltaIdx := sampleCounter.deltaIdx
                  deltas := sampleCounter.deltas } :=
  ⟨by decide, C4_flush_load_roundtrip sampleCounter (by decide)⟩

/-- C5, counterexample: running the spec's scenario cold (5 increments,
rotate, 3 increments, rotate, then 59 further rotations with no
increments) leaves `WindowTotal()` at 3, not 0: the bucket holding 3 was
settled one rotation later than the bucket holding 5, so it is still
inside the 60-bucket window after 59 further rotations. -/
theorem C5_scenario_counterexample :
    printedTotal (rotN 59 afterSecondRotate) = 3 ∧
    ¬ printedTotal (rotN 59 afterSecondRotate) = 0 :=
  ⟨by decide, by decide⟩

/-- C5 (amended): cold start, 5 increments, one rotation:
`WindowTotal() = 5`; 3 further increments: 8; one further rotation: 8;
after 59 further rotations with no increments: 3 (the bucket holding 3 is
still within the window); after one more rotation (60 further): 0. -/
theorem C5_scenario :
    printedTotal afterFirstRotate = 5 ∧
    printedTotal (incN 3 afterFirstRotate) = 8 ∧
    printedTotal afterSecondRotate = 8 ∧
    printedTotal (rotN 59 afterSecondRotate) = 3 ∧
    printedTotal (rotN 60 afterSecondRotate) = 0 :=
  ⟨by decide, by decide, by decide, by decide, by decide⟩

/-- C6: a GET on the registered route first increments the counter, then
responds 200 with the exact body
`Served {N} requests in the last : 1m0s\nThe time is: {now}\n`, where N
is `timeWindowReqNo + timeLapseReqNo` read after the increment (one more,
mod `2 ^ 64`, than before the request); any other method yields 405 with
no body and no increment. -/
theorem C6_get_handler (c : requestCounter) (now : String) :
    printRequestNo "GET" now c =
      (200, increment c,
        "Served " ++ toString (printedTotal (increment c)) ++
          " requests in the last : 1m0s\n" ++ "The time is: " ++ now ++
          "\n") ∧
    printedTotal (increment c) =
      (c.timeWindowReqNo + c.timeLapseReqNo + 1) % M64 ∧
    (∀ m : String, m ≠ "GET" → printRequestNo m now c = (405, c, "")) := by
  refine ⟨?_, ?_, ?_⟩
  · simp [printRequestNo]
  · show (c.timeWindowReqNo + (c.timeLapseReqNo + 1) % M64) % M64 =
        (c.timeWindowReqNo + c.timeLapseReqNo + 1) % M64
    simp only [M64]
    omega
  · intro m hm
    simp [printRequestNo, hm]

/-- C6, witness: the handler at a concrete state and a concrete non-GET
method. -/
theorem C6_get_handler_witness :
    printRequestNo "POST" "Mon, 02 Jan 2006 15:04:05 MST" sampleCounter =
      (405, sampleCounter, "") :=
  (C6_get_handler sampleCounter "Mon, 02 Jan 2006 15:04:05 MST").2.2 "POST"
    (by decide)

/-- C7: a durable file that exists but does not decode as `jsonData` makes
`init`/`loadFile` abort (`log.Fatalln` in `abort`), so startup never
produces a counter and the process does not reach `ListenAndServe`. -/
theorem C7_corrupt_file_fatal :
    rcInit fileState.corrupt = Except.error "JSON decode" ∧
    ∀ c' : requestCounter, rcInit fileState.corrupt ≠ Except.ok c' := by
  refine ⟨rfl, ?_⟩
  intro c' hc
  simp [rcInit, loadFile] at hc

/-- C8: `init` against a nonexistent durable file succeeds and leaves
every counter field zero (`timeLapseReqNo`, `timeWindowReqNo`,
`deltaIdx` all 0 and all 60 buckets 0). -/
theorem C8_cold_start :
    rcInit fileState.absent = Except.ok initialCounter ∧
    initialCounter.timeLapseReqNo = 0 ∧
    initialCounter.timeWindowReqNo = 0 ∧
    initialCounter.deltaIdx = 0 ∧
    initialCounter.deltas = List.replicate 60 0 :=
  ⟨rfl, rfl, rfl, rfl, rfl⟩

/-- C9: under the invariants `deltaIdx ≤ 60`, 60 buckets, and
`timeWindowReqNo = sum deltas`, the rotation's bucket access (after the
`cursor == 60` reset) is in bounds, and the value subtracted from
`timeWindowReqNo` is at most `timeWindowReqNo`, so the unsigned
subtraction cannot underflow. -/
theorem C9_rotate_access_safe (c : requestCounter)
    (hidx : c.deltaIdx ≤ 60) (hlen : c.deltas.length = 60)
    (hsum : c.timeWindowReqNo = c.deltas.sum) :
    (if c.deltaIdx = 60 then 0 else c.deltaIdx) < c.deltas.length ∧
    c.deltas.getD (if c.deltaIdx = 60 then 0 else c.deltaIdx) 0 ≤
      c.timeWindowReqNo := by
  refine ⟨by rw [hlen]; split <;> omega, ?_⟩
  rw [hsum]
  exact getD_le_sum _ _

/-- C9, witness: the safety conditions at a concrete state whose window
total equals its bucket sum. -/
theorem C9_rotate_access_safe_witness :
    (sampleCounter.deltaIdx ≤ 60 ∧ sampleCounter.deltas.length = 60 ∧
      sampleCounter.timeWindowReqNo = sampleCounter.deltas.sum) ∧
    ((if sampleCounter.deltaIdx = 60 then 0 else sampleCounter.deltaIdx) <
        sampleCounter.deltas.length ∧
      sampleCounter.deltas.getD
          (if sampleCounter.deltaIdx = 60 then 0
            else sampleCounter.deltaIdx) 0 ≤
        sampleCounter.timeWindowReqNo) :=
  ⟨⟨by decide, by decide, by decide⟩,
    C9_rotate_access_safe sampleCounter (by decide) (by decide) (by decide)⟩

/-- C10: dispatch looks up `r.URL.String()` — path plus query — in the
route table, whose only key is `"/"`; a GET for path `/` with query
`x=1` therefore misses, receives the 404 body naming the escaped path,
and leaves the counter untouched (no increment). -/
theorem C10_query_string_404 (c : requestCounter) (now : String) :
    urlString { path := "/", rawQuery := "x=1" } = "/?x=1" ∧
    serveHTTP { path := "/", rawQuery := "x=1" } "GET" now c =
      (404, c, "Requested resource \x27/\x27 does not exist\n") := by
  refine ⟨rfl, ?_⟩
  have hne : urlString { path := "/", rawQuery := "x=1" } ≠ "/" := by decide
  have hbody :
      ("Requested resource \x27" ++ escapeString "/" ++
          "\x27 does not exist\n" : String) =
        "Requested resource \x27/\x27 does not exist\n" := by decide
  simp only [serveHTTP]
  rw [if_neg hne, hbody]
